import Mathlib

/-!
Verification of the ResuMate resume-optimization pipeline.

This file is a shallow embedding of `src/resume_agent.py` and
`src/gradio_resume_app.py`.  The external Gemini text-generation service is
modelled as an environment `Env` mapping a prompt string to either a returned
text (`Except.ok`) or a raised exception message (`Except.error`); the
`genai.configure` call of the Gradio layer is modelled likewise.  Python
`json.loads` is embedded as a fuel-based recursive-descent decoder `json_loads`
over the JSON grammar that `json.loads` accepts (objects, arrays, strings with
escapes, numbers, `true`/`false`/`null`, and the CPython extensions `NaN`,
`Infinity`, `-Infinity`); numeric literals are kept as their lexeme, since no
behaviour in this repository inspects numeric values.  Python string escaping
inside `repr`/`json.dumps` output is not modelled (the prompts built from it
are only ever passed opaquely to the environment).
-/

/-- A decoded JSON value, as produced by the embedded `json.loads`.
Numbers keep their source lexeme; objects keep their key/value pairs in
source order. -/
inductive Json where
  | null : Json
  | bool (b : Bool) : Json
  | num (lexeme : String) : Json
  | str (s : String) : Json
  | arr (elems : List Json) : Json
  | obj (fields : List (String × Json)) : Json

/-- Whether a JSON value is an object (a Python `dict` after `json.loads`). -/
def Json.isObj : Json → Bool
  | Json.obj _ => true
  | _ => false

/-- The whitespace characters that the JSON grammar of `json.loads` skips. -/
def isJsonWs (c : Char) : Bool :=
  c = ' ' || c = '\t' || c = '\n' || c = '\r'

/-- Drop leading JSON whitespace. -/
def skipWs : List Char → List Char
  | [] => []
  | c :: cs => if isJsonWs c then skipWs cs else c :: cs

/-- Value of a hexadecimal digit, if any. -/
def hexVal (c : Char) : Option Nat :=
  if c.isDigit then some (c.toNat - 48)
  else if 'a' ≤ c ∧ c ≤ 'f' then some (c.toNat - 87)
  else if 'A' ≤ c ∧ c ≤ 'F' then some (c.toNat - 55)
  else none

/-- Match a literal character sequence, returning the remaining input. -/
def dropLit : List Char → List Char → Option (List Char)
  | [], cs => some cs
  | _ :: _, [] => none
  | l :: ls, c :: cs => if c = l then dropLit ls cs else none

/-- Longest prefix of decimal digits, with the rest of the input. -/
def takeDigits : List Char → List Char × List Char
  | [] => ([], [])
  | c :: cs =>
    if c.isDigit then
      let (ds, r) := takeDigits cs
      (c :: ds, r)
    else ([], c :: cs)

/-- Integer part of a JSON number: `0`, or a nonzero digit followed by
digits (`json.loads` rejects leading zeros). -/
def parseIntPart : List Char → Option (List Char × List Char)
  | [] => none
  | c :: cs =>
    if c = '0' then some (['0'], cs)
    else if c.isDigit then
      let (ds, r) := takeDigits cs
      some (c :: ds, r)
    else none

/-- Optional fraction part of a JSON number: a dot requires at least one
digit after it. -/
def parseFrac : List Char → Option (List Char × List Char)
  | '.' :: cs =>
    match takeDigits cs with
    | ([], _) => none
    | (ds, r) => some ('.' :: ds, r)
  | cs => some ([], cs)

/-- Optional exponent part of a JSON number. -/
def parseExpPart : List Char → Option (List Char × List Char)
  | 'e' :: cs =>
    match cs with
    | '+' :: cs2 =>
      match takeDigits cs2 with
      | ([], _) => none
      | (ds, r) => some ('e' :: '+' :: ds, r)
    | '-' :: cs2 =>
      match takeDigits cs2 with
      | ([], _) => none
      | (ds, r) => some ('e' :: '-' :: ds, r)
    | _ =>
      match takeDigits cs with
      | ([], _) => none
      | (ds, r) => some ('e' :: ds, r)
  | 'E' :: cs =>
    match cs with
    | '+' :: cs2 =>
      match takeDigits cs2 with
      | ([], _) => none
      | (ds, r) => some ('E' :: '+' :: ds, r)
    | '-' :: cs2 =>
      match takeDigits cs2 with
      | ([], _) => none
      | (ds, r) => some ('E' :: '-' :: ds, r)
    | _ =>
      match takeDigits cs with
      | ([], _) => none
      | (ds, r) => some ('E' :: ds, r)
  | cs => some ([], cs)

/-- A JSON number starting at the current position (the leading sign, if any,
has already been checked to introduce a number). -/
def parseNumber (cs : List Char) : Option (String × List Char) :=
  let (sign, cs1) :=
    match cs with
    | '-' :: r => (['-'], r)
    | _ => ([], cs)
  match parseIntPart cs1 with
  | none => none
  | some (ip, cs2) =>
    match parseFrac cs2 with
    | none => none
    | some (fp, cs3) =>
      match parseExpPart cs3 with
      | none => none
      | some (ep, cs4) => some (String.mk (sign ++ ip ++ fp ++ ep), cs4)

/-- Body of a JSON string after the opening quote: characters up to the
closing quote, decoding escapes; raw control characters are rejected as in
strict-mode `json.loads`. -/
def parseStringBody : Nat → List Char → Option (List Char × List Char)
  | 0, _ => none
  | _, [] => none
  | fuel + 1, c :: cs =>
    if c = '\x22' then some ([], cs)
    else if c = '\x5c' then
      match cs with
      | [] => none
      | e :: cs2 =>
        if e = '\x22' then (parseStringBody fuel cs2).map (fun p => ('\x22' :: p.1, p.2))
        else if e = '\x5c' then (parseStringBody fuel cs2).map (fun p => ('\x5c' :: p.1, p.2))
        else if e = '/' then (parseStringBody fuel cs2).map (fun p => ('/' :: p.1, p.2))
        else if e = 'b' then (parseStringBody fuel cs2).map (fun p => ('\x08' :: p.1, p.2))
        else if e = 'f' then (parseStringBody fuel cs2).map (fun p => ('\x0c' :: p.1, p.2))
        else if e = 'n' then (parseStringBody fuel cs2).map (fun p => ('\n' :: p.1, p.2))
        else if e = 'r' then (parseStringBody fuel cs2).map (fun p => ('\r' :: p.1, p.2))
        else if e = 't' then (parseStringBody fuel cs2).map (fun p => ('\t' :: p.1, p.2))
        else if e = 'u' then
          match cs2 with
          | h1 :: h2 :: h3 :: h4 :: cs3 =>
            match hexVal h1, hexVal h2, hexVal h3, hexVal h4 with
            | some a, some b, some c2, some d =>
              (parseStringBody fuel cs3).map
                (fun p => (Char.ofNat (a * 4096 + b * 256 + c2 * 16 + d) :: p.1, p.2))
            | _, _, _, _ => none
          | _ => none
        else none
    else if c.toNat < 32 then none
    else (parseStringBody fuel cs).map (fun p => (c :: p.1, p.2))

mutual

/-- One JSON value: skip whitespace, then dispatch on the first character,
exactly as the `json.loads` grammar does. -/
def parseValue : Nat → List Char → Option (Json × List Char)
  | 0, _ => none
  | fuel + 1, cs =>
    match skipWs cs with
    | [] => none
    | c :: rest =>
      if c = '\x7b' then
        match skipWs rest with
        | '\x7d' :: r2 => some (Json.obj [], r2)
        | r2 => (parseMembers fuel r2).map (fun p => (Json.obj p.1, p.2))
      else if c = '[' then
        match skipWs rest with
        | ']' :: r2 => some (Json.arr [], r2)
        | r2 => (parseElems fuel r2).map (fun p => (Json.arr p.1, p.2))
      else if c = '\x22' then
        (parseStringBody (rest.length + 1) rest).map (fun p => (Json.str (String.mk p.1), p.2))
      else if c = 't' then (dropLit ['r', 'u', 'e'] rest).map (fun r => (Json.bool true, r))
      else if c = 'f' then (dropLit ['a', 'l', 's', 'e'] rest).map (fun r => (Json.bool false, r))
      else if c = 'n' then (dropLit ['u', 'l', 'l'] rest).map (fun r => (Json.null, r))
      else if c = 'N' then (dropLit ['a', 'N'] rest).map (fun r => (Json.num "NaN", r))
      else if c = 'I' then
        (dropLit ['n', 'f', 'i', 'n', 'i', 't', 'y'] rest).map (fun r => (Json.num "Infinity", r))
      else if c = '-' then
        match rest with
        | 'I' :: r2 =>
          (dropLit ['n', 'f', 'i', 'n', 'i', 't', 'y'] r2).map
            (fun r => (Json.num "-Infinity", r))
        | _ => (parseNumber (c :: rest)).map (fun p => (Json.num p.1, p.2))
      else if c.isDigit then (parseNumber (c :: rest)).map (fun p => (Json.num p.1, p.2))
      else none

/-- Members of a JSON object after the opening brace and whitespace
(the input is known not to start the empty object). -/
def parseMembers : Nat → List Char → Option (List (String × Json) × List Char)
  | 0, _ => none
  | fuel + 1, cs =>
    match cs with
    | '\x22' :: r1 =>
      match parseStringBody (r1.length + 1) r1 with
      | none => none
      | some (kb, r2) =>
        match skipWs r2 with
        | ':' :: r3 =>
          match parseValue fuel r3 with
          | none => none
          | some (v, r4) =>
            match skipWs r4 with
            | ',' :: r5 =>
              match parseMembers fuel (skipWs r5) with
              | none => none
              | some (fs, r6) => some ((String.mk kb, v) :: fs, r6)
            | '\x7d' :: r5 => some ([(String.mk kb, v)], r5)
            | _ => none
        | _ => none
    | _ => none

/-- Elements of a JSON array after the opening bracket and whitespace
(the input is known not to start the empty array). -/
def parseElems : Nat → List Char → Option (List Json × List Char)
  | 0, _ => none
  | fuel + 1, cs =>
    match parseValue fuel cs with
    | none => none
    | some (v, r1) =>
      match skipWs r1 with
      | ',' :: r2 =>
        match parseElems fuel r2 with
        | none => none
        | some (xs, r3) => some (v :: xs, r3)
      | ']' :: r2 => some ([v], r2)
      | _ => none

end

/-- Embedding of Python `json.loads`: decode one JSON value and require that
only whitespace follows it; any failure is `none` (a `JSONDecodeError`).
The fuel `2 * length + 2` dominates the recursion depth, since every two
recursive steps consume at least one input character. -/
def json_loads (s : String) : Option Json :=
  match parseValue (2 * s.length + 2) s.data with
  | some (v, rest) => if skipWs rest = [] then some v else none
  | none => none


/-- The characters stripped by Python `str.strip()` (ASCII whitespace;
Unicode whitespace is outside the modelled character set). -/
def isPySpace (c : Char) : Bool :=
  c = ' ' || c = '\t' || c = '\n' || c = '\r' || c = '\x0b' || c = '\x0c'

/-- Embedding of Python `str.strip()`. -/
def pyStrip (s : String) : String :=
  String.mk (((s.data.dropWhile isPySpace).reverse.dropWhile isPySpace).reverse)

/-- Accumulating scan for `pySplitWs`: whitespace ends the current word. -/
def splitWsAux : List Char → List Char → List String
  | [], acc => if acc.isEmpty then [] else [String.mk acc.reverse]
  | c :: cs, acc =>
    if isPySpace c then
      if acc.isEmpty then splitWsAux cs [] else String.mk acc.reverse :: splitWsAux cs []
    else splitWsAux cs (c :: acc)

/-- Embedding of Python `str.split()` with no separator: split on whitespace
runs, dropping empty pieces. -/
def pySplitWs (s : String) : List String := splitWsAux s.data []

/-- Accumulating scan for `pySplitOn`: at each position, either the separator
matches and the accumulated piece is emitted, or one character is consumed. -/
def splitSepAux (sep : List Char) : Nat → List Char → List Char → List String
  | 0, cs, acc => [String.mk (acc.reverse ++ cs)]
  | fuel + 1, cs, acc =>
    match dropLit sep cs with
    | some r => String.mk acc.reverse :: splitSepAux sep fuel r []
    | none =>
      match cs with
      | [] => [String.mk acc.reverse]
      | c :: cs2 => splitSepAux sep fuel cs2 (c :: acc)

/-- Embedding of Python `str.split(sep)` for a nonempty separator: split on
every occurrence, keeping empty pieces. -/
def pySplitOn (s : String) (sep : String) : List String :=
  splitSepAux sep.data (s.length + 1) s.data []


/-- Python `repr` of a `str` (quoting only; escape sequences inside the
string are not modelled). -/
def pyReprStr (s : String) : String := "\x27" ++ s ++ "\x27"

/-- Python `repr` of a list of strings. -/
def pyReprStrList (xs : List String) : String :=
  "[" ++ String.intercalate ", " (xs.map pyReprStr) ++ "]"

/-- Python `repr` of a `dict` with string keys and values. -/
def pyReprPairs (ps : List (String × String)) : String :=
  "\x7b" ++
    String.intercalate ", " (ps.map (fun p => pyReprStr p.1 ++ ": " ++ pyReprStr p.2)) ++
  "\x7d"

mutual

/-- Python `repr` of a value produced by `json.loads`. -/
def pyReprJson : Json → String
  | Json.null => "None"
  | Json.bool true => "True"
  | Json.bool false => "False"
  | Json.num l => l
  | Json.str s => pyReprStr s
  | Json.arr xs => "[" ++ pyReprJsonElems xs ++ "]"
  | Json.obj fs => "\x7b" ++ pyReprJsonFields fs ++ "\x7d"

/-- Comma-separated `repr` of list elements. -/
def pyReprJsonElems : List Json → String
  | [] => ""
  | [x] => pyReprJson x
  | x :: y :: ys => pyReprJson x ++ ", " ++ pyReprJsonElems (y :: ys)

/-- Comma-separated `repr` of dict entries. -/
def pyReprJsonFields : List (String × Json) → String
  | [] => ""
  | [f] => pyReprStr f.1 ++ ": " ++ pyReprJson f.2
  | f :: g :: fs => pyReprStr f.1 ++ ": " ++ pyReprJson f.2 ++ ", " ++ pyReprJsonFields (g :: fs)

end

/-- Python `repr` of a list of `json.loads` values. -/
def pyReprJsonList (xs : List Json) : String := "[" ++ pyReprJsonElems xs ++ "]"

mutual

/-- Embedding of Python `json.dumps` with default (compact) separators. -/
def jsonDumps : Json → String
  | Json.null => "null"
  | Json.bool true => "true"
  | Json.bool false => "false"
  | Json.num l => l
  | Json.str s => "\x22" ++ s ++ "\x22"
  | Json.arr xs => "[" ++ jsonDumpsElems xs ++ "]"
  | Json.obj fs => "\x7b" ++ jsonDumpsFields fs ++ "\x7d"

/-- Comma-separated dump of array elements. -/
def jsonDumpsElems : List Json → String
  | [] => ""
  | [x] => jsonDumps x
  | x :: y :: ys => jsonDumps x ++ ", " ++ jsonDumpsElems (y :: ys)

/-- Comma-separated dump of object entries. -/
def jsonDumpsFields : List (String × Json) → String
  | [] => ""
  | [f] => "\x22" ++ f.1 ++ "\x22: " ++ jsonDumps f.2
  | f :: g :: fs => "\x22" ++ f.1 ++ "\x22: " ++ jsonDumps f.2 ++ ", " ++ jsonDumpsFields (g :: fs)

end

/-- A run of spaces, for indented `json.dumps`. -/
def spaces (n : Nat) : String := String.mk (List.replicate n ' ')

mutual

/-- Embedding of Python `json.dumps` with `indent=2`, at indentation `ind`. -/
def jsonDumpsInd (ind : Nat) : Json → String
  | Json.arr [] => "[]"
  | Json.arr (x :: xs) => "[\n" ++ jsonDumpsIndElems (ind + 2) (x :: xs) ++ "\n" ++ spaces ind ++ "]"
  | Json.obj [] => "\x7b\x7d"
  | Json.obj (f :: fs) =>
    "\x7b\n" ++ jsonDumpsIndFields (ind + 2) (f :: fs) ++ "\n" ++ spaces ind ++ "\x7d"
  | v => jsonDumps v

/-- Indented dump of array elements, one per line. -/
def jsonDumpsIndElems (ind : Nat) : List Json → String
  | [] => ""
  | [x] => spaces ind ++ jsonDumpsInd ind x
  | x :: y :: ys => spaces ind ++ jsonDumpsInd ind x ++ ",\n" ++ jsonDumpsIndElems ind (y :: ys)

/-- Indented dump of object entries, one per line. -/
def jsonDumpsIndFields (ind : Nat) : List (String × Json) → String
  | [] => ""
  | [f] => spaces ind ++ "\x22" ++ f.1 ++ "\x22: " ++ jsonDumpsInd ind f.2
  | f :: g :: fs =>
    spaces ind ++ "\x22" ++ f.1 ++ "\x22: " ++ jsonDumpsInd ind f.2 ++ ",\n" ++
      jsonDumpsIndFields ind (g :: fs)

end


/-- Embedding of the `ResumeData` dataclass of `src/resume_agent.py`.
The open-ended `Dict` entries of `experiences`/`education` are modelled as
JSON values (in this repository the parser always leaves both lists empty). -/
structure ResumeData where
  personal_info : List (String × String)
  summary : String
  experiences : List Json
  skills : List String
  education : List Json
  raw_text : String

/-- Embedding of the `JobDescription` dataclass of `src/resume_agent.py`. -/
structure JobDescription where
  title : String
  company : String
  description : String
  requirements : List String
  keywords : List String

/-- The external Gemini text-generation service, as seen through
`model.generate_content`: for each prompt it either returns a text
(`Except.ok`) or raises an exception with a message (`Except.error`). -/
structure Env where
  genContent : String → Except String String

/-- Embedding of `Agent.generate_response` (src/resume_agent.py lines 41-47):
return the response text, or absorb any raised exception into the string
`"Error generating response: " ++ message`. -/
def generate_response (env : Env) (prompt : String) : String :=
  match env.genContent prompt with
  | Except.ok t => t
  | Except.error e => "Error generating response: " ++ e

/-- The shared decode step of every JSON-returning unit: `json.loads` the
response, and on decode failure return the sentinel object
`\x7b"error": msg\x7d` (the per-unit `try/except json.JSONDecodeError`). -/
def jsonOrSentinel (response : String) (msg : String) : Json :=
  match json_loads response with
  | some v => v
  | none => Json.obj [("error", Json.str msg)]

/-- The prompt assembled by `SummaryAgent.execute` (f-string interpolations
rendered with Python `repr` semantics). -/
def summaryPrompt (rd : ResumeData) (jd : Option JobDescription) : String :=
  let context :=
    "\n        Personal Info: " ++ pyReprPairs rd.personal_info ++
    "\n        Experience: " ++ pyReprJsonList rd.experiences ++
    "\n        Skills: " ++ pyReprStrList rd.skills ++
    "\n        Education: " ++ pyReprJsonList rd.education ++
    "\n        "
  let job_context :=
    match jd with
    | none => ""
    | some j =>
      "\n            Target Job: " ++ j.title ++ " at " ++ j.company ++
      "\n            Job Requirements: " ++ pyReprStrList j.requirements ++
      "\n            "
  "\n        Create a compelling professional summary (2-3 sentences) based on this resume information:" ++
  "\n        " ++ context ++
  "\n        \n        " ++ job_context ++
  "\n        \n        Guidelines:" ++
  "\n        - Highlight unique value proposition" ++
  "\n        - Use action-oriented language" ++
  "\n        - Focus on achievements and impact" ++
  "\n        - Keep it concise and engaging" ++
  "\n        - If job description provided, align with role requirements" ++
  "\n        \n        Return only the professional summary text.\n        "

/-- Embedding of `SummaryAgent.execute`: one provider round-trip, the raw
response returned unmodified.  The second component records the prompts
sent to the provider (one per call). -/
def summaryAgent_run (env : Env) (rd : ResumeData) (jd : Option JobDescription) :
    String × List String :=
  let prompt := summaryPrompt rd jd
  (generate_response env prompt, [prompt])

/-- Result of `SummaryAgent.execute`. -/
def summaryAgent_execute (env : Env) (rd : ResumeData) (jd : Option JobDescription) : String :=
  (summaryAgent_run env rd jd).1

/-- The prompt assembled by `ExperienceMatchingAgent.execute`
(`experiences_text` is `json.dumps(resume_data.experiences, indent=2)`). -/
def experienceMatchingPrompt (rd : ResumeData) (jd : JobDescription) : String :=
  let experiences_text := jsonDumpsInd 0 (Json.arr rd.experiences)
  "\n        Analyze these work experiences and rank them by relevance to the target job:" ++
  "\n        \n        EXPERIENCES:" ++
  "\n        " ++ experiences_text ++
  "\n        \n        TARGET JOB:" ++
  "\n        Title: " ++ jd.title ++
  "\n        Company: " ++ jd.company ++
  "\n        Description: " ++ jd.description ++
  "\n        Requirements: " ++ pyReprStrList jd.requirements ++
  "\n        \n        For each experience, provide:" ++
  "\n        1. Relevance score (1-10)" ++
  "\n        2. Key matching points" ++
  "\n        3. Suggested improvements for better alignment" ++
  "\n        4. Recommended order for resume" ++
  "\n        \n        Return as JSON format:" ++
  "\n        \x7b" ++
  "\n            \x22ranked_experiences\x22: [" ++
  "\n                \x7b" ++
  "\n                    \x22original_experience\x22: \x7b...\x7d," ++
  "\n                    \x22relevance_score\x22: 8," ++
  "\n                    \x22matching_points\x22: [\x22point1\x22, \x22point2\x22]," ++
  "\n                    \x22suggested_improvements\x22: [\x22improvement1\x22, \x22improvement2\x22]," ++
  "\n                    \x22recommended_position\x22: 1" ++
  "\n                \x7d" ++
  "\n            ]" ++
  "\n        \x7d\n        "

/-- Embedding of `ExperienceMatchingAgent.execute` (src/resume_agent.py lines
88-127): one provider round-trip, then `json.loads` with the unit sentinel
on decode failure. -/
def experienceMatchingAgent_run (env : Env) (rd : ResumeData) (jd : JobDescription) :
    Json × List String :=
  let prompt := experienceMatchingPrompt rd jd
  (jsonOrSentinel (generate_response env prompt) "Failed to parse experience matching results",
    [prompt])

/-- Result of `ExperienceMatchingAgent.execute`. -/
def experienceMatchingAgent_execute (env : Env) (rd : ResumeData) (jd : JobDescription) : Json :=
  (experienceMatchingAgent_run env rd jd).1

/-- The prompt assembled by `KeywordOptimizationAgent.execute`. -/
def keywordOptimizationPrompt (rd : ResumeData) (jd : JobDescription) : String :=
  "\n        Analyze the resume and job description to optimize ATS keywords:" ++
  "\n        \n        RESUME CONTENT:" ++
  "\n        Summary: " ++ rd.summary ++
  "\n        Skills: " ++ pyReprStrList rd.skills ++
  "\n        Experiences: " ++ jsonDumps (Json.arr rd.experiences) ++
  "\n        \n        JOB DESCRIPTION:" ++
  "\n        " ++ jd.description ++
  "\n        Requirements: " ++ pyReprStrList jd.requirements ++
  "\n        \n        Provide:" ++
  "\n        1. Missing critical keywords from job description" ++
  "\n        2. Keyword density analysis" ++
  "\n        3. Suggested keyword placements" ++
  "\n        4. Industry-specific terms to include" ++
  "\n        5. ATS optimization score (1-100)" ++
  "\n        \n        Return as JSON:" ++
  "\n        \x7b" ++
  "\n            \x22missing_keywords\x22: [\x22keyword1\x22, \x22keyword2\x22]," ++
  "\n            \x22current_keyword_density\x22: \x7b\x22keyword\x22: \x22frequency\x22\x7d," ++
  "\n            \x22suggested_placements\x22: [" ++
  "\n                \x7b" ++
  "\n                    \x22keyword\x22: \x22Python\x22," ++
  "\n                    \x22sections\x22: [\x22skills\x22, \x22experience\x22]," ++
  "\n                    \x22context\x22: \x22Add to technical skills section\x22" ++
  "\n                \x7d" ++
  "\n            ]," ++
  "\n            \x22industry_terms\x22: [\x22term1\x22, \x22term2\x22]," ++
  "\n            \x22ats_score\x22: 75," ++
  "\n            \x22recommendations\x22: [\x22rec1\x22, \x22rec2\x22]" ++
  "\n        \x7d\n        "

/-- Embedding of `KeywordOptimizationAgent.execute` (src/resume_agent.py
lines 132-173). -/
def keywordOptimizationAgent_run (env : Env) (rd : ResumeData) (jd : JobDescription) :
    Json × List String :=
  let prompt := keywordOptimizationPrompt rd jd
  (jsonOrSentinel (generate_response env prompt) "Failed to parse keyword optimization results",
    [prompt])

/-- Result of `KeywordOptimizationAgent.execute`. -/
def keywordOptimizationAgent_execute (env : Env) (rd : ResumeData) (jd : JobDescription) : Json :=
  (keywordOptimizationAgent_run env rd jd).1

/-- The prompt assembled by `DesignAgent.execute`.  `industry` is
`job_desc.title.split()[0]` when a job description is supplied, else
`"General"` (the source would raise `IndexError` on an all-whitespace title;
that is modelled as the empty string and unreachable from the orchestrator,
whose titles are always `"Target Position"`). -/
def designPrompt (rd : ResumeData) (jd : Option JobDescription) : String :=
  let industry :=
    match jd with
    | some j => (pySplitWs j.title).headD ""
    | none => "General"
  "\n        Suggest design and formatting improvements for a " ++ industry ++
    " professional\x27s resume:" ++
  "\n        \n        CURRENT RESUME STRUCTURE:" ++
  "\n        - Personal Info: " ++ toString rd.personal_info.length ++ " fields" ++
  "\n        - Experiences: " ++ toString rd.experiences.length ++ " positions" ++
  "\n        - Skills: " ++ toString rd.skills.length ++ " skills listed" ++
  "\n        - Education: " ++ toString rd.education.length ++ " entries" ++
  "\n        \n        Consider:" ++
  "\n        1. Industry standards for " ++ industry ++
  "\n        2. ATS-friendly formatting" ++
  "\n        3. Visual hierarchy and readability" ++
  "\n        4. Professional appearance" ++
  "\n        5. Length optimization" ++
  "\n        \n        Return JSON with:" ++
  "\n        \x7b" ++
  "\n            \x22recommended_template\x22: \x22template_name\x22," ++
  "\n            \x22layout_suggestions\x22: [\x22suggestion1\x22, \x22suggestion2\x22]," ++
  "\n            \x22formatting_rules\x22: [\x22rule1\x22, \x22rule2\x22]," ++
  "\n            \x22color_scheme\x22: \x22color_description\x22," ++
  "\n            \x22typography\x22: \x22font_recommendations\x22," ++
  "\n            \x22sections_order\x22: [\x22section1\x22, \x22section2\x22, \x22section3\x22]," ++
  "\n            \x22design_tips\x22: [\x22tip1\x22, \x22tip2\x22]" ++
  "\n        \x7d\n        "

/-- Embedding of `DesignAgent.execute` (src/resume_agent.py lines 178-213). -/
def designAgent_run (env : Env) (rd : ResumeData) (jd : Option JobDescription) :
    Json × List String :=
  let prompt := designPrompt rd jd
  (jsonOrSentinel (generate_response env prompt) "Failed to parse design suggestions", [prompt])

/-- Result of `DesignAgent.execute`. -/
def designAgent_execute (env : Env) (rd : ResumeData) (jd : Option JobDescription) : Json :=
  (designAgent_run env rd jd).1

/-- The prompt assembled by `EditingAgent.execute` over the raw resume text. -/
def editingPrompt (text : String) : String :=
  "\n        Analyze this resume text for improvements:" ++
  "\n        \n        TEXT TO REVIEW:" ++
  "\n        " ++ text ++
  "\n        \n        Check for:" ++
  "\n        1. Grammar and punctuation errors" ++
  "\n        2. Clarity and conciseness" ++
  "\n        3. Action verb usage" ++
  "\n        4. Quantifiable achievements" ++
  "\n        5. Professional tone" ++
  "\n        6. Consistency in formatting" ++
  "\n        \n        Return JSON:" ++
  "\n        \x7b" ++
  "\n            \x22grammar_errors\x22: [" ++
  "\n                \x7b" ++
  "\n                    \x22original\x22: \x22original text\x22," ++
  "\n                    \x22corrected\x22: \x22corrected text\x22," ++
  "\n                    \x22explanation\x22: \x22reason for change\x22" ++
  "\n                \x7d" ++
  "\n            ]," ++
  "\n            \x22clarity_improvements\x22: [" ++
  "\n                \x7b" ++
  "\n                    \x22original\x22: \x22original text\x22," ++
  "\n                    \x22improved\x22: \x22improved text\x22," ++
  "\n                    \x22reason\x22: \x22why it\x27s better\x22" ++
  "\n                \x7d" ++
  "\n            ]," ++
  "\n            \x22action_verb_suggestions\x22: [\x22verb1\x22, \x22verb2\x22]," ++
  "\n            \x22quantification_opportunities\x22: [\x22opportunity1\x22, \x22opportunity2\x22]," ++
  "\n            \x22overall_score\x22: 85," ++
  "\n            \x22summary_feedback\x22: \x22Overall assessment\x22" ++
  "\n        \x7d\n        "

/-- Embedding of `EditingAgent.execute` (src/resume_agent.py lines 218-260):
takes the raw resume text, not a `ResumeData`. -/
def editingAgent_run (env : Env) (text : String) : Json × List String :=
  let prompt := editingPrompt text
  (jsonOrSentinel (generate_response env prompt) "Failed to parse editing suggestions", [prompt])

/-- Result of `EditingAgent.execute`. -/
def editingAgent_execute (env : Env) (text : String) : Json :=
  (editingAgent_run env text).1

/-- The section markers recognised by `ResumeAgent.parse_resume`. -/
inductive RSection where
  | summarySec : RSection
  | experienceSec : RSection
  | skillsSec : RSection
  | educationSec : RSection

/-- Embedding of Python `str.lower()` (ASCII; Unicode case mapping is
outside the modelled character set). -/
def pyLower (s : String) : String := String.mk (s.data.map Char.toLower)

/-- Whether a string starts with any of the given literals (the effect of
`re.match` with an alternation of plain literals). -/
def startsWithAny (s : String) (ps : List String) : Bool :=
  ps.any (fun p => (dropLit p.data s.data).isSome)

/-- Section-header classification of one stripped, lowercased line, in the
order of the `elif` chain of `parse_resume` (src/resume_agent.py lines
288-295). -/
def headerOf (lowered : String) : Option RSection :=
  if startsWithAny lowered ["summary", "profile", "objective"] then some RSection.summarySec
  else if startsWithAny lowered ["experience", "work", "employment"] then
    some RSection.experienceSec
  else if startsWithAny lowered ["skills", "technical"] then some RSection.skillsSec
  else if startsWithAny lowered ["education", "academic"] then some RSection.educationSec
  else none

/-- The loop state of `parse_resume`: the active section and the two
accumulators that are actually populated (`experience`/`education` content
is recognised but never captured in the source). -/
structure ParseState where
  current_section : Option RSection
  summary : String
  skills : List String

/-- One iteration of the line loop of `parse_resume` (src/resume_agent.py
lines 286-300): strip the line, switch section on a header match, otherwise
append a non-blank line to the active accumulator (`summary` lines are
concatenated with a trailing space, `skills` lines are comma-split and each
piece stripped). -/
def parseStep (st : ParseState) (rawLine : String) : ParseState :=
  let line := pyStrip rawLine
  match headerOf (pyLower line) with
  | some s => { st with current_section := some s }
  | none =>
    if line = "" then st
    else
      match st.current_section with
      | some RSection.summarySec => { st with summary := st.summary ++ line ++ " " }
      | some RSection.skillsSec =>
        { st with skills := st.skills ++ (pySplitOn line ",").map pyStrip }
      | _ => st

/-- Embedding of `ResumeAgent.parse_resume` (src/resume_agent.py lines
272-309): split into lines, run the classification loop, and assemble a
`ResumeData` with the fixed placeholder `personal_info`, empty
`experiences`/`education`, and the verbatim input as `raw_text`. -/
def parse_resume (resume_text : String) : ResumeData :=
  let lines := pySplitOn resume_text "\n"
  let final := lines.foldl parseStep (ParseState.mk none "" [])
  { personal_info := [("name", "John Doe"), ("email", "john@email.com")]
    summary := pyStrip final.summary
    experiences := []
    skills := final.skills
    education := []
    raw_text := resume_text }


/-- The `JobDescription` constructed by `ResumeAgent.optimize_resume` for a
truthy `job_description` string (src/resume_agent.py lines 319-326). -/
def mkJobDescription (job_description : String) : JobDescription :=
  { title := "Target Position"
    company := "Target Company"
    description := job_description
    requirements := ((pySplitOn job_description ".").map pyStrip).filter (fun r => r ≠ "")
    keywords := [] }

/-- A value stored in the `results` dict of `optimize_resume`: the timestamp
string, the `resume_data.__dict__` snapshot, the plain-text summary, or a
JSON-returning unit result. -/
inductive RVal where
  | str (s : String) : RVal
  | resume (rd : ResumeData) : RVal
  | json (j : Json) : RVal

/-- Python truthiness of the optional `job_description` argument: supplied
and non-empty. -/
def jobTruthy : Option String → Bool
  | none => false
  | some j => !(j = "")

/-- Embedding of `ResumeAgent.optimize_resume` (src/resume_agent.py lines
311-353): parse the resume, construct a `JobDescription` when `job_description`
is truthy, then run the units in the fixed order, attaching each result under
its named field.  `now` stands for `datetime.now().isoformat()`.  The second
component is the sequence of provider prompts issued, in call order. -/
def optimize_resume_run (env : Env) (now : String) (resume_text : String)
    (job_description : Option String) : List (String × RVal) × List String :=
  let resume_data := parse_resume resume_text
  let job_desc : Option JobDescription :=
    match job_description with
    | none => none
    | some j => if j = "" then none else some (mkJobDescription j)
  let sRun := summaryAgent_run env resume_data job_desc
  let jobPart : List (String × RVal) × List String :=
    match job_desc with
    | none => ([], [])
    | some jd =>
      let eRun := experienceMatchingAgent_run env resume_data jd
      let kRun := keywordOptimizationAgent_run env resume_data jd
      ([("experience_matching", RVal.json eRun.1), ("keyword_optimization", RVal.json kRun.1)],
        eRun.2 ++ kRun.2)
  let dRun := designAgent_run env resume_data job_desc
  let edRun := editingAgent_run env resume_text
  ([("timestamp", RVal.str now), ("original_resume", RVal.resume resume_data),
      ("new_summary", RVal.str sRun.1)] ++
    jobPart.1 ++
    [("design_suggestions", RVal.json dRun.1), ("editing_suggestions", RVal.json edRun.1)],
    sRun.2 ++ jobPart.2 ++ dRun.2 ++ edRun.2)

/-- The report returned by `ResumeAgent.optimize_resume`. -/
def optimize_resume (env : Env) (now : String) (resume_text : String)
    (job_description : Option String) : List (String × RVal) :=
  (optimize_resume_run env now resume_text job_description).1

/-- The external state the Gradio layer touches: the generation service and
the behaviour of `genai.configure` on a given key (`some msg` when the call
raises, `none` when it succeeds; the real `genai.configure` stores the key
without contacting the provider, so a wrong-but-well-formed key does not
raise here). -/
structure GradioEnv where
  env : Env
  configureError : String → Option String

/-- The two shapes `GradioResumeApp.process_resume` can return: the
`_create_error_output` tuple (one message, all other views blank), or the
`_format_results` rendering of a complete results dict.  The rendering
itself is presentation and out of scope; the constructor keeps the results
it would render. -/
inductive ProcessOutput where
  | errorOutput (msg : String) : ProcessOutput
  | report (results : List (String × RVal)) : ProcessOutput

/-- Whether the output is the error tuple. -/
def ProcessOutput.isError : ProcessOutput → Bool
  | ProcessOutput.errorOutput _ => true
  | ProcessOutput.report _ => false

/-- Embedding of `GradioResumeApp._get_content`: file content if a file was
uploaded (modelled as already-decoded text), else the stripped pasted text if
non-blank, else the sample. -/
def get_content (file : Option String) (text : String) (sample : String) : String :=
  match file with
  | some content => content
  | none => if pyStrip text = "" then sample else pyStrip text

/-- Embedding of `GradioResumeApp.process_resume` (src/gradio_resume_app.py
lines 18-48): reject a missing/blank key, then call `genai.configure` and
reject if it raises, then resolve resume and job content (with sample
fallback) and run the orchestrator.  The second component is the sequence of
provider prompts issued. -/
def process_resume_run (genv : GradioEnv) (now : String)
    (resume_file : Option String) (resume_text : String)
    (job_file : Option String) (job_text : String)
    (api_key : String) (sample_resume : String) (sample_job_desc : String) :
    ProcessOutput × List String :=
  if api_key = "" ∨ pyStrip api_key = "" then
    (ProcessOutput.errorOutput "❌ Please provide a valid Gemini API key", [])
  else
    match genv.configureError (pyStrip api_key) with
    | some e => (ProcessOutput.errorOutput ("❌ Invalid API key: " ++ e), [])
    | none =>
      let resume_content := get_content resume_file resume_text sample_resume
      if resume_content = "" then
        (ProcessOutput.errorOutput "❌ No resume content provided", [])
      else
        let job_content := get_content job_file job_text sample_job_desc
        let r := optimize_resume_run genv.env now resume_content (some job_content)
        (ProcessOutput.report r.1, r.2)

/-- A provider environment whose generation call always raises. -/
def envFail : Env := Env.mk (fun _ => Except.error "quota exceeded")

/-- A provider stub that always returns one fixed well-formed JSON object. -/
def envOk : Env := Env.mk (fun _ => Except.ok "\x7b\x22a\x22: 1\x7d")

/-- A provider stub that always returns a malformed (non-JSON) string. -/
def envBad : Env := Env.mk (fun _ => Except.ok "not json")

/-- A provider stub that always returns a JSON array (valid JSON that is not
an object). -/
def envArr : Env := Env.mk (fun _ => Except.ok "[1, 2]")

/-- A small parsed resume used to instantiate unit-level theorems. -/
def rdW : ResumeData := parse_resume "SKILLS\nPython\n"

/-- A small job description used to instantiate unit-level theorems. -/
def jdW : JobDescription := mkJobDescription "Build APIs."

/-- A Gradio-layer environment for an invalid (wrong but non-empty) key:
`genai.configure` accepts it without contacting the provider, and every
generation call is then rejected by the provider. -/
def genvInvalidKey : GradioEnv :=
  GradioEnv.mk (Env.mk (fun _ => Except.error "400 API key not valid."))
    (fun _ => none)

theorem parseValue_E (fuel : Nat) (cs : List Char) :
    parseValue fuel ('E' :: cs) = none := by
  cases fuel with
  | zero => rfl
  | succ n => rfl

/-- Any string with the prefix produced by a provider failure fails JSON
decoding: the first character `E` starts no JSON value. -/
theorem json_loads_error_string (e : String) :
    json_loads ("Error generating response: " ++ e) = none := by
  obtain ⟨l⟩ := e
  have hd : ("Error generating response: " ++ String.mk l).data
      = 'E' :: ("rror generating response: ".data ++ l) := rfl
  simp only [json_loads, hd, parseValue_E]

theorem jsonOrSentinel_of_some {r : String} {v : Json} (m : String)
    (h : json_loads r = some v) : jsonOrSentinel r m = v := by
  simp [jsonOrSentinel, h]

theorem jsonOrSentinel_of_none {r : String} (m : String)
    (h : json_loads r = none) :
    jsonOrSentinel r m = Json.obj [("error", Json.str m)] := by
  simp [jsonOrSentinel, h]

theorem generate_response_err {env : Env} {p e : String}
    (h : env.genContent p = Except.error e) :
    generate_response env p = "Error generating response: " ++ e := by
  simp [generate_response, h]

/-- C5: for every prompt and every provider failure, `generate_response`
returns the failure as a string with the fixed prefix
`Error generating response: `; that string never decodes as JSON, so any
JSON-returning caller falls through to its error sentinel. -/
theorem generate_response_absorbs_provider_failure (env : Env) (prompt msg m : String)
    (h : env.genContent prompt = Except.error msg) :
    generate_response env prompt = "Error generating response: " ++ msg ∧
    json_loads (generate_response env prompt) = none ∧
    jsonOrSentinel (generate_response env prompt) m = Json.obj [("error", Json.str m)] := by
  have h1 := generate_response_err h
  refine ⟨h1, ?_, ?_⟩
  · rw [h1]; exact json_loads_error_string msg
  · rw [h1]; exact jsonOrSentinel_of_none m (json_loads_error_string msg)

/-- Witness for C5 at a concrete failing provider. -/
theorem generate_response_absorbs_provider_failure_witness :
    envFail.genContent "p" = Except.error "quota exceeded" ∧
    (generate_response envFail "p" = "Error generating response: " ++ "quota exceeded" ∧
      json_loads (generate_response envFail "p") = none ∧
      jsonOrSentinel (generate_response envFail "p") "unit message" =
        Json.obj [("error", Json.str "unit message")]) :=
  ⟨rfl, generate_response_absorbs_provider_failure envFail "p" "quota exceeded" "unit message" rfl⟩

/-- C6: `parse_resume` is a total pure function and its `raw_text` field is
the input verbatim, for every input string. -/
theorem parse_resume_raw_text_verbatim (s : String) : (parse_resume s).raw_text = s := rfl

/-- C8: parsing is idempotent: re-parsing the `raw_text` of a parse result
yields the same `ResumeData` (hence the same section contents). -/
theorem parse_resume_idempotent (x : String) :
    parse_resume ((parse_resume x).raw_text) = parse_resume x := rfl

/-- C9: for every input, `parse_resume` returns empty `experiences` and
`education` and the constant placeholder `personal_info`; only `summary` and
`skills` depend on the input. -/
theorem parse_resume_constant_fields (s : String) :
    (parse_resume s).experiences = [] ∧ (parse_resume s).education = [] ∧
    (parse_resume s).personal_info = [("name", "John Doe"), ("email", "john@email.com")] :=
  ⟨rfl, rfl, rfl⟩

/-- The field names of the report, in insertion order, as a function of the
truthiness of the `job_description` argument. -/
theorem optimize_resume_keys (env : Env) (now rt : String) (jdo : Option String) :
    (optimize_resume env now rt jdo).map Prod.fst =
      if jobTruthy jdo then
        ["timestamp", "original_resume", "new_summary", "experience_matching",
          "keyword_optimization", "design_suggestions", "editing_suggestions"]
      else
        ["timestamp", "original_resume", "new_summary", "design_suggestions",
          "editing_suggestions"] := by
  cases jdo with
  | none => rfl
  | some j =>
    by_cases hj : j = ""
    · subst hj; rfl
    · simp [optimize_resume, optimize_resume_run, jobTruthy, hj]

/-- C1: the report always contains `timestamp`, `original_resume`,
`new_summary`, `design_suggestions` and `editing_suggestions`, contains
`experience_matching` and `keyword_optimization` exactly when the job text is
supplied and non-empty, and contains no other fields. -/
theorem optimize_resume_report_fields (env : Env) (now rt : String) (jdo : Option String) :
    (optimize_resume env now rt jdo).map Prod.fst =
      if jobTruthy jdo then
        ["timestamp", "original_resume", "new_summary", "experience_matching",
          "keyword_optimization", "design_suggestions", "editing_suggestions"]
      else
        ["timestamp", "original_resume", "new_summary", "design_suggestions",
          "editing_suggestions"] :=
  optimize_resume_keys env now rt jdo

/-- C7: a non-blank, non-header line scanned while the active section is the
skills section appends its comma-split, stripped pieces to the skills list in
order, and on the concrete scenario `"SKILLS\nPython, Go, Rust\n"` with no
job text the parsed skills are exactly `["Python", "Go", "Rust"]` and the
report carries only the three job-independent unit-result fields. -/
theorem skills_section_lines_accumulate (st : ParseState) (rawLine : String)
    (hline : pyStrip rawLine ≠ "")
    (hhdr : headerOf (pyLower (pyStrip rawLine)) = none)
    (hsec : st.current_section = some RSection.skillsSec) :
    (parseStep st rawLine).skills =
        st.skills ++ ((pySplitOn (pyStrip rawLine) ",").map pyStrip) ∧
    (parse_resume "SKILLS\nPython, Go, Rust\n").skills = ["Python", "Go", "Rust"] ∧
    ∀ env now,
      (optimize_resume env now "SKILLS\nPython, Go, Rust\n" none).map Prod.fst =
        ["timestamp", "original_resume", "new_summary", "design_suggestions",
          "editing_suggestions"] := by
  refine ⟨?_, rfl, ?_⟩
  · simp [parseStep, hhdr, hline, hsec]
  · intro env now
    exact (optimize_resume_keys env now _ none).trans rfl

/-- Witness for C7 on the skills line of the concrete scenario. -/
theorem skills_section_lines_accumulate_witness :
    pyStrip "Python, Go, Rust" ≠ "" ∧
    headerOf (pyLower (pyStrip "Python, Go, Rust")) = none ∧
    (ParseState.mk (some RSection.skillsSec) "" ["Java"]).current_section =
      some RSection.skillsSec ∧
    ((parseStep (ParseState.mk (some RSection.skillsSec) "" ["Java"]) "Python, Go, Rust").skills =
        ["Java"] ++ ((pySplitOn (pyStrip "Python, Go, Rust") ",").map pyStrip) ∧
      (parse_resume "SKILLS\nPython, Go, Rust\n").skills = ["Python", "Go", "Rust"] ∧
      (optimize_resume envFail "t" "SKILLS\nPython, Go, Rust\n" none).map Prod.fst =
        ["timestamp", "original_resume", "new_summary", "design_suggestions",
          "editing_suggestions"]) :=
  ⟨by decide, rfl, rfl,
    (skills_section_lines_accumulate (ParseState.mk (some RSection.skillsSec) "" ["Java"])
        "Python, Go, Rust" (by decide) rfl rfl).1,
    (skills_section_lines_accumulate (ParseState.mk (some RSection.skillsSec) "" ["Java"])
        "Python, Go, Rust" (by decide) rfl rfl).2.1,
    (skills_section_lines_accumulate (ParseState.mk (some RSection.skillsSec) "" ["Java"])
        "Python, Go, Rust" (by decide) rfl rfl).2.2 envFail "t"⟩

/-- C3: for each JSON-returning unit and every client response: a response
that decodes as JSON becomes the unit result unchanged, and one that does
not becomes the unit-specific `\x7berror: ...\x7d` sentinel; the unit itself
is a total function. -/
theorem json_units_decode_or_sentinel (env : Env) (rd : ResumeData) (jd : JobDescription)
    (jdo : Option JobDescription) (text : String) (v : Json) :
    (json_loads (generate_response env (experienceMatchingPrompt rd jd)) = some v →
      experienceMatchingAgent_execute env rd jd = v) ∧
    (json_loads (generate_response env (experienceMatchingPrompt rd jd)) = none →
      experienceMatchingAgent_execute env rd jd =
        Json.obj [("error", Json.str "Failed to parse experience matching results")]) ∧
    (json_loads (generate_response env (keywordOptimizationPrompt rd jd)) = some v →
      keywordOptimizationAgent_execute env rd jd = v) ∧
    (json_loads (generate_response env (keywordOptimizationPrompt rd jd)) = none →
      keywordOptimizationAgent_execute env rd jd =
        Json.obj [("error", Json.str "Failed to parse keyword optimization results")]) ∧
    (json_loads (generate_response env (designPrompt rd jdo)) = some v →
      designAgent_execute env rd jdo = v) ∧
    (json_loads (generate_response env (designPrompt rd jdo)) = none →
      designAgent_execute env rd jdo =
        Json.obj [("error", Json.str "Failed to parse design suggestions")]) ∧
    (json_loads (generate_response env (editingPrompt text)) = some v →
      editingAgent_execute env text = v) ∧
    (json_loads (generate_response env (editingPrompt text)) = none →
      editingAgent_execute env text =
        Json.obj [("error", Json.str "Failed to parse editing suggestions")]) := by
  refine ⟨fun h => ?_, fun h => ?_, fun h => ?_, fun h => ?_, fun h => ?_, fun h => ?_,
    fun h => ?_, fun h => ?_⟩
  all_goals first
    | exact jsonOrSentinel_of_some _ h
    | exact jsonOrSentinel_of_none _ h

/-- Witness for C3: a stub returning a fixed well-formed JSON object makes
every unit return exactly the decoded object, and a stub returning a
malformed string makes every unit return its sentinel. -/
theorem json_units_decode_or_sentinel_witness :
    (experienceMatchingAgent_execute envOk rdW jdW = Json.obj [("a", Json.num "1")] ∧
      keywordOptimizationAgent_execute envOk rdW jdW = Json.obj [("a", Json.num "1")] ∧
      designAgent_execute envOk rdW (some jdW) = Json.obj [("a", Json.num "1")] ∧
      editingAgent_execute envOk "TEXT" = Json.obj [("a", Json.num "1")]) ∧
    (experienceMatchingAgent_execute envBad rdW jdW =
        Json.obj [("error", Json.str "Failed to parse experience matching results")] ∧
      keywordOptimizationAgent_execute envBad rdW jdW =
        Json.obj [("error", Json.str "Failed to parse keyword optimization results")] ∧
      designAgent_execute envBad rdW (some jdW) =
        Json.obj [("error", Json.str "Failed to parse design suggestions")] ∧
      editingAgent_execute envBad "TEXT" =
        Json.obj [("error", Json.str "Failed to parse editing suggestions")]) :=
  ⟨⟨(json_units_decode_or_sentinel envOk rdW jdW (some jdW) "TEXT"
        (Json.obj [("a", Json.num "1")])).1 rfl,
    (json_units_decode_or_sentinel envOk rdW jdW (some jdW) "TEXT"
        (Json.obj [("a", Json.num "1")])).2.2.1 rfl,
    (json_units_decode_or_sentinel envOk rdW jdW (some jdW) "TEXT"
        (Json.obj [("a", Json.num "1")])).2.2.2.2.1 rfl,
    (json_units_decode_or_sentinel envOk rdW jdW (some jdW) "TEXT"
        (Json.obj [("a", Json.num "1")])).2.2.2.2.2.2.1 rfl⟩,
    ⟨(json_units_decode_or_sentinel envBad rdW jdW (some jdW) "TEXT" Json.null).2.1 rfl,
    (json_units_decode_or_sentinel envBad rdW jdW (some jdW) "TEXT" Json.null).2.2.2.1 rfl,
    (json_units_decode_or_sentinel envBad rdW jdW (some jdW) "TEXT" Json.null).2.2.2.2.2.1 rfl,
    (json_units_decode_or_sentinel envBad rdW jdW (some jdW) "TEXT"
        Json.null).2.2.2.2.2.2.2 rfl⟩⟩

/-- C10: a client response that decodes as JSON but is not an object is
returned by the unit unchanged, for the ExperienceMatching, Design and
Editing units, and lands unchanged in the corresponding report field. -/
theorem json_units_pass_through_nonmapping (env : Env) (rd : ResumeData)
    (jd : JobDescription) (jdo : Option JobDescription) (text now rt : String) (v : Json) :
    (json_loads (generate_response env (experienceMatchingPrompt rd jd)) = some v →
      experienceMatchingAgent_execute env rd jd = v) ∧
    (json_loads (generate_response env (designPrompt rd jdo)) = some v →
      designAgent_execute env rd jdo = v) ∧
    (json_loads (generate_response env (editingPrompt text)) = some v →
      editingAgent_execute env text = v) ∧
    (json_loads (generate_response env (designPrompt (parse_resume rt) none)) = some v →
      List.lookup "design_suggestions" (optimize_resume env now rt none) =
        some (RVal.json v)) := by
  refine ⟨fun h => jsonOrSentinel_of_some _ h, fun h => jsonOrSentinel_of_some _ h,
    fun h => jsonOrSentinel_of_some _ h, fun h => ?_⟩
  have hv : designAgent_execute env (parse_resume rt) none = v := jsonOrSentinel_of_some _ h
  calc List.lookup "design_suggestions" (optimize_resume env now rt none)
      = some (RVal.json (designAgent_execute env (parse_resume rt) none)) := rfl
    _ = some (RVal.json v) := by rw [hv]

/-- Witness for C10: a stub returning the JSON array `[1, 2]` makes each
unit return that array (not an object, not the sentinel), and the report
field holds it. -/
theorem json_units_pass_through_nonmapping_witness :
    experienceMatchingAgent_execute envArr rdW jdW = Json.arr [Json.num "1", Json.num "2"] ∧
    designAgent_execute envArr rdW (some jdW) = Json.arr [Json.num "1", Json.num "2"] ∧
    editingAgent_execute envArr "TEXT" = Json.arr [Json.num "1", Json.num "2"] ∧
    List.lookup "design_suggestions" (optimize_resume envArr "t" "SKILLS" none) =
      some (RVal.json (Json.arr [Json.num "1", Json.num "2"])) ∧
    Json.isObj (Json.arr [Json.num "1", Json.num "2"]) = false :=
  ⟨(json_units_pass_through_nonmapping envArr rdW jdW (some jdW) "TEXT" "t" "SKILLS"
      (Json.arr [Json.num "1", Json.num "2"])).1 rfl,
    (json_units_pass_through_nonmapping envArr rdW jdW (some jdW) "TEXT" "t" "SKILLS"
      (Json.arr [Json.num "1", Json.num "2"])).2.1 rfl,
    (json_units_pass_through_nonmapping envArr rdW jdW (some jdW) "TEXT" "t" "SKILLS"
      (Json.arr [Json.num "1", Json.num "2"])).2.2.1 rfl,
    (json_units_pass_through_nonmapping envArr rdW jdW (some jdW) "TEXT" "t" "SKILLS"
      (Json.arr [Json.num "1", Json.num "2"])).2.2.2 rfl, rfl⟩

/-- C4: with non-empty resume and job text, the report always carries all
seven fields; a provider failure inside the editing unit is absorbed into
the sentinel of that unit while every other scheduled field still holds the
result of its own unit, computed as if nothing failed. -/
theorem optimize_resume_isolates_unit_failure (env : Env) (now rt j msg : String)
    (hrt : rt ≠ "") (hj : j ≠ "")
    (hfail : env.genContent (editingPrompt rt) = Except.error msg) :
    (optimize_resume env now rt (some j)).map Prod.fst =
      ["timestamp", "original_resume", "new_summary", "experience_matching",
        "keyword_optimization", "design_suggestions", "editing_suggestions"] ∧
    List.lookup "editing_suggestions" (optimize_resume env now rt (some j)) =
      some (RVal.json (Json.obj [("error", Json.str "Failed to parse editing suggestions")])) ∧
    List.lookup "new_summary" (optimize_resume env now rt (some j)) =
      some (RVal.str (summaryAgent_execute env (parse_resume rt)
        (some (mkJobDescription j)))) ∧
    List.lookup "experience_matching" (optimize_resume env now rt (some j)) =
      some (RVal.json (experienceMatchingAgent_execute env (parse_resume rt)
        (mkJobDescription j))) ∧
    List.lookup "keyword_optimization" (optimize_resume env now rt (some j)) =
      some (RVal.json (keywordOptimizationAgent_execute env (parse_resume rt)
        (mkJobDescription j))) ∧
    List.lookup "design_suggestions" (optimize_resume env now rt (some j)) =
      some (RVal.json (designAgent_execute env (parse_resume rt)
        (some (mkJobDescription j)))) := by
  have hrep : optimize_resume env now rt (some j) =
      [("timestamp", RVal.str now),
        ("original_resume", RVal.resume (parse_resume rt)),
        ("new_summary", RVal.str (summaryAgent_execute env (parse_resume rt)
          (some (mkJobDescription j)))),
        ("experience_matching", RVal.json (experienceMatchingAgent_execute env
          (parse_resume rt) (mkJobDescription j))),
        ("keyword_optimization", RVal.json (keywordOptimizationAgent_execute env
          (parse_resume rt) (mkJobDescription j))),
        ("design_suggestions", RVal.json (designAgent_execute env (parse_resume rt)
          (some (mkJobDescription j)))),
        ("editing_suggestions", RVal.json (editingAgent_execute env rt))] := by
    simp [optimize_resume, optimize_resume_run, hj, summaryAgent_execute,
      experienceMatchingAgent_execute, keywordOptimizationAgent_execute,
      designAgent_execute, editingAgent_execute]
  have hed : editingAgent_execute env rt =
      Json.obj [("error", Json.str "Failed to parse editing suggestions")] := by
    show jsonOrSentinel (generate_response env (editingPrompt rt)) _ = _
    rw [generate_response_err hfail]
    exact jsonOrSentinel_of_none _ (json_loads_error_string msg)
  rw [hrep, hed]
  exact ⟨rfl, rfl, rfl, rfl, rfl, rfl⟩

/-- Witness for C4 on a concrete environment whose every provider call
fails. -/
theorem optimize_resume_isolates_unit_failure_witness :
    ("R" : String) ≠ "" ∧ ("J" : String) ≠ "" ∧
    envFail.genContent (editingPrompt "R") = Except.error "quota exceeded" ∧
    ((optimize_resume envFail "t" "R" (some "J")).map Prod.fst =
      ["timestamp", "original_resume", "new_summary", "experience_matching",
        "keyword_optimization", "design_suggestions", "editing_suggestions"] ∧
    List.lookup "editing_suggestions" (optimize_resume envFail "t" "R" (some "J")) =
      some (RVal.json (Json.obj [("error", Json.str "Failed to parse editing suggestions")])) ∧
    List.lookup "new_summary" (optimize_resume envFail "t" "R" (some "J")) =
      some (RVal.str (summaryAgent_execute envFail (parse_resume "R")
        (some (mkJobDescription "J")))) ∧
    List.lookup "experience_matching" (optimize_resume envFail "t" "R" (some "J")) =
      some (RVal.json (experienceMatchingAgent_execute envFail (parse_resume "R")
        (mkJobDescription "J"))) ∧
    List.lookup "keyword_optimization" (optimize_resume envFail "t" "R" (some "J")) =
      some (RVal.json (keywordOptimizationAgent_execute envFail (parse_resume "R")
        (mkJobDescription "J"))) ∧
    List.lookup "design_suggestions" (optimize_resume envFail "t" "R" (some "J")) =
      some (RVal.json (designAgent_execute envFail (parse_resume "R")
        (some (mkJobDescription "J"))))) :=
  ⟨by decide, by decide, rfl,
    optimize_resume_isolates_unit_failure envFail "t" "R" "J" "quota exceeded"
      (by decide) (by decide) rfl⟩

theorem process_resume_run_blank (genv : GradioEnv) (now : String)
    (resume_file : Option String) (resume_text : String) (job_file : Option String)
    (job_text api_key sample_resume sample_job : String)
    (hb : api_key = "" ∨ pyStrip api_key = "") :
    process_resume_run genv now resume_file resume_text job_file job_text api_key
        sample_resume sample_job =
      (ProcessOutput.errorOutput "❌ Please provide a valid Gemini API key", []) := by
  unfold process_resume_run
  rw [if_pos hb]

theorem process_resume_run_configure_raises (genv : GradioEnv) (now : String)
    (resume_file : Option String) (resume_text : String) (job_file : Option String)
    (job_text api_key sample_resume sample_job e : String)
    (hb : ¬(api_key = "" ∨ pyStrip api_key = ""))
    (he : genv.configureError (pyStrip api_key) = some e) :
    process_resume_run genv now resume_file resume_text job_file job_text api_key
        sample_resume sample_job =
      (ProcessOutput.errorOutput ("❌ Invalid API key: " ++ e), []) := by
  unfold process_resume_run
  rw [if_neg hb, he]

/-- C2 (amended): a missing or blank credential, or a credential the
provider-configuration call raises on, is rejected before any unit runs: the
output is the single-message error tuple (no partial report) and no provider
call is made. -/
theorem process_resume_rejects_blank_or_unconfigurable_key (genv : GradioEnv)
    (now : String) (resume_file : Option String) (resume_text : String)
    (job_file : Option String) (job_text api_key sample_resume sample_job : String)
    (h : api_key = "" ∨ pyStrip api_key = "" ∨
      genv.configureError (pyStrip api_key) ≠ none) :
    (process_resume_run genv now resume_file resume_text job_file job_text api_key
        sample_resume sample_job).2 = [] ∧
    (process_resume_run genv now resume_file resume_text job_file job_text api_key
        sample_resume sample_job).1.isError = true := by
  by_cases hb : api_key = "" ∨ pyStrip api_key = ""
  · rw [process_resume_run_blank genv now resume_file resume_text job_file job_text
      api_key sample_resume sample_job hb]
    exact ⟨rfl, rfl⟩
  · have hc : genv.configureError (pyStrip api_key) ≠ none := by
      rcases h with h1 | h2 | h3
      · exact absurd (Or.inl h1) hb
      · exact absurd (Or.inr h2) hb
      · exact h3
    obtain ⟨e, he⟩ : ∃ e, genv.configureError (pyStrip api_key) = some e := by
      cases hx : genv.configureError (pyStrip api_key) with
      | none => exact absurd hx hc
      | some e => exact ⟨e, rfl⟩
    rw [process_resume_run_configure_raises genv now resume_file resume_text job_file
      job_text api_key sample_resume sample_job e hb he]
    exact ⟨rfl, rfl⟩

/-- Witness for the amended C2 at a blank credential. -/
theorem process_resume_rejects_blank_or_unconfigurable_key_witness :
    (("" : String) = "" ∨ pyStrip "" = "" ∨
      genvInvalidKey.configureError (pyStrip "") ≠ none) ∧
    ((process_resume_run genvInvalidKey "t" none "R" none "J" "" "sr" "sj").2 = [] ∧
      (process_resume_run genvInvalidKey "t" none "R" none "J" "" "sr" "sj").1.isError =
        true) :=
  ⟨Or.inl rfl,
    process_resume_rejects_blank_or_unconfigurable_key genvInvalidKey "t" none "R" none
      "J" "" "sr" "sj" (Or.inl rfl)⟩

/-- C2 counterexample: with the concrete non-empty invalid credential
`"invalid-key"` — `genai.configure` accepts it without contacting the
provider, and the provider then rejects every generation call — the request
is not rejected before the units run: five provider calls are made and a
report (whose fields hold error text) is produced, not the single-error
output the claim requires. -/
theorem process_resume_invalid_key_still_calls_provider :
    (process_resume_run genvInvalidKey "t" none "SKILLS" none "Job." "invalid-key"
        "sample resume" "sample job").2.length = 5 ∧
    (process_resume_run genvInvalidKey "t" none "SKILLS" none "Job." "invalid-key"
        "sample resume" "sample job").1.isError = false :=
  ⟨rfl, rfl⟩
